import Mathlib

/-
Verification of the env_perm library (persistent environment variables).

The development shallowly embeds the two platform backends of src/lib.rs:

Unix backend: the profile file is a string; every mutator opens it in
append mode (find_profile, get_profile) and writes one chunk produced by
a writeln call, so a call maps profile contents p to p concatenated with
the chunk. The chunk is the format output followed by the newline that
writeln itself appends.

Windows backend: the Environment registry key is an association list from
value names to string data. RegSetValueExW overwrites the named value or
creates it; RegGetValueW returns the data or the native code 2
(ERROR_FILE_NOT_FOUND) when the value is absent. The rust split on the
string ";" and the join with ";" are embedded as splitSemi and joinSemi.

The process environment read by std env var is an association list from
names to values, where a value is either a unicode string or a
non-unicode value (std env var reports the latter as an error).
-/

namespace EnvPerm

/-- Error kinds of the io errors in the model. The rust code only ever
constructs the Other kind; NotFound and Unsupported are the kinds the
specification names. -/
inductive ErrorKind
  | notFound
  | unsupported
  | other
  deriving DecidableEq, Repr

/-- Value of a process environment variable: a unicode string, or data
that is not valid unicode (std env var reports it as VarError NotUnicode). -/
inductive EnvVal
  | str (s : String)
  | nonUnicode
  deriving DecidableEq, Repr

/-- Error values of std env var. -/
inductive VarError
  | notPresent
  | notUnicode
  deriving DecidableEq, Repr

/-- Process environment: names bound to values. -/
abbrev Env := List (String × EnvVal)

/-- Lookup of a name in the process environment. -/
def lookupEnv (env : Env) (name : String) : Option EnvVal :=
  (env.find? (fun p => p.fst == name)).map (fun p => p.snd)

/-- Behaviour of std env var: the bound string on success, an error when
the name is absent or its value is not unicode. -/
def envVar (env : Env) (name : String) : Except VarError String :=
  match lookupEnv env name with
  | some (EnvVal.str s) => Except.ok s
  | some EnvVal.nonUnicode => Except.error VarError.notUnicode
  | none => Except.error VarError.notPresent

/-- Format output of the writeln call in the unix set function. -/
def setLine (var value : String) : String :=
  "\nexport " ++ var ++ "=" ++ value

/-- Text the unix set function writes: the format output plus the newline
appended by writeln. -/
def setChunk (var value : String) : String :=
  setLine var value ++ "\n"

/-- Format output of the writeln call in the unix append function. -/
def appendLine (var value : String) : String :=
  "\nexport " ++ var ++ "=\"" ++ value ++ ":$" ++ var ++ "\""

/-- Text the unix append function writes. -/
def appendChunk (var value : String) : String :=
  appendLine var value ++ "\n"

/-- Format output of the writeln call in the unix prepend function. The
format string takes the arguments var, value, var in that order, so the
dollar sign lands on the value and the variable name ends the quoted text. -/
def prependLine (var value : String) : String :=
  "\nexport " ++ var ++ "=\"$" ++ value ++ ":" ++ var ++ "\""

/-- Text the unix prepend function writes. -/
def prependChunk (var value : String) : String :=
  prependLine var value ++ "\n"

/-- Unix set: the profile, opened in append mode, gains the set chunk. -/
def setOp (profile var value : String) : String :=
  profile ++ setChunk var value

/-- Unix append: the profile gains the append chunk. -/
def appendOp (profile var value : String) : String :=
  profile ++ appendChunk var value

/-- Unix prepend: the profile gains the prepend chunk. -/
def prependOp (profile var value : String) : String :=
  profile ++ prependChunk var value

/-- Unix check_or_set: read the variable through std env var; on success
return the profile untouched, on error delegate to set. -/
def check_or_set (env : Env) (profile var value : String) : String :=
  match envVar env var with
  | Except.ok _ => profile
  | Except.error _ => setOp profile var value

/-- State of the per-user Environment registry key: value names bound to
string data. -/
abbrev RegState := List (String × String)

/-- Read of a named registry value. -/
def regGet (reg : RegState) (name : String) : Option String :=
  (reg.find? (fun p => p.fst == name)).map (fun p => p.snd)

/-- RegSetValueExW: overwrite the named value in place, or create it. -/
def regSet (reg : RegState) (name value : String) : RegState :=
  match reg with
  | [] => [(name, value)]
  | p :: ps => if p.fst == name then (name, value) :: ps else p :: regSet ps name value

/-- Native code RegGetValueW reports for an absent value. -/
def ERROR_FILE_NOT_FOUND : Nat := 2

/-- RegGetValueW on the Environment key: the data, or the native code 2
when the value is absent. -/
def regGetValue (reg : RegState) (name : String) : Except Nat String :=
  match regGet reg name with
  | some s => Except.ok s
  | none => Except.error ERROR_FILE_NOT_FOUND

/-- Windows get_from_environment: read the registry value; a non-success
native result becomes an io error of the Other kind whose message embeds
the native code. -/
def get_from_environment (reg : RegState) (name : String) :
    Except (ErrorKind × String) String :=
  match regGetValue reg name with
  | Except.ok s => Except.ok s
  | Except.error code =>
      Except.error (ErrorKind.other,
        "Failed to get environment variable, Error code: " ++ toString code)

/-- Split of a character list on the semicolon, as the rust split on the
string ";" behaves (empty pieces kept, a trailing separator yields a
trailing empty piece). -/
def splitSemiList : List Char → List Char → List (List Char)
  | [], acc => [acc.reverse]
  | c :: cs, acc =>
      if c = ';' then acc.reverse :: splitSemiList cs []
      else splitSemiList cs (c :: acc)

/-- Split of a string on the semicolon. -/
def splitSemi (s : String) : List String :=
  (splitSemiList s.data []).map String.mk

/-- Join of string pieces with the semicolon, as the rust join with ";". -/
def joinSemi : List String → String
  | [] => ""
  | [x] => x
  | x :: xs => x ++ ";" ++ joinSemi xs

/-- Windows append: read the current data, split on the semicolon, push
the new segment at the end with no containment check, join and store. A
read failure aborts before any write. -/
def append_windows (reg : RegState) (var value : String) :
    Except (ErrorKind × String) RegState :=
  match get_from_environment reg var with
  | Except.error e => Except.error e
  | Except.ok envString =>
      let envVec := splitSemi envString
      Except.ok (regSet reg var (joinSemi (envVec ++ [value])))

/-- Windows prepend: as append but the new segment is inserted at index
zero, again with no containment check. -/
def prepend_windows (reg : RegState) (var value : String) :
    Except (ErrorKind × String) RegState :=
  match get_from_environment reg var with
  | Except.error e => Except.error e
  | Except.ok envString =>
      let envVec := splitSemi envString
      Except.ok (regSet reg var (joinSemi (value :: envVec)))

/-- Windows set: overwrite the named registry value. -/
def set_windows (reg : RegState) (var value : String) : RegState :=
  regSet reg var value

/-- Windows check_or_set: read the variable through std env var (the
process environment, not the registry); on success leave the registry
untouched, on error delegate to set. -/
def check_or_set_windows (env : Env) (reg : RegState) (var value : String) :
    RegState :=
  match envVar env var with
  | Except.ok _ => reg
  | Except.error _ => set_windows reg var value

/-- Files present in the home directory, by file name. -/
abbrev HomeDir := List String

/-- Open of a profile candidate in append mode: succeeds on an existing
file leaving the directory as it is; with the create flag it also
succeeds on a missing file by creating it. The returned pair is the
opened file and the directory afterwards. -/
def openProfile (fs : HomeDir) (name : String) (create : Bool) :
    Option (String × HomeDir) :=
  if fs.contains name then some (name, fs)
  else if create then some (name, name :: fs)
  else none

/-- Unix find_profile: try bash_profile, bash_login, profile in append
mode without creating; as a last resort create bash_profile. -/
def find_profile (fs : HomeDir) : Option (String × HomeDir) :=
  match openProfile fs ".bash_profile" false with
  | some r => some r
  | none =>
    match openProfile fs ".bash_login" false with
    | some r => some r
    | none =>
      match openProfile fs ".profile" false with
      | some r => some r
      | none => openProfile fs ".bash_profile" true

theorem newline_export (x : String) : "\n" ++ ("export " ++ x) = "\nexport " ++ x := by
  rw [← String.append_assoc]
  rfl

/-- C4: the unix append writes exactly the chunk made of the line
backslash-n export NAME="VALUE:$NAME" (new value first, expansion last)
plus the newline that writeln appends, and the unix set writes the line
backslash-n export NAME=VALUE plus that newline; at PATH and X the append
line is exactly the expected string, leading newline included. -/
theorem c4_unix_append_set_format (profile var value : String) :
    appendOp profile var value = profile ++ (appendLine var value ++ "\n")
    ∧ appendLine var value = "\nexport " ++ var ++ "=\"" ++ value ++ ":$" ++ var ++ "\""
    ∧ setOp profile var value = profile ++ (setLine var value ++ "\n")
    ∧ setLine var value = "\nexport " ++ var ++ "=" ++ value
    ∧ appendLine "PATH" "X" = "\nexport PATH=\"X:$PATH\""
    ∧ setLine "DUMMY" "1" = "\nexport DUMMY=1" :=
  ⟨rfl, rfl, rfl, rfl, rfl, rfl⟩

/-- C1: evaluation at the failing input. The unix prepend at PATH and X
writes the line with the dollar sign on the value and the variable name
as the literal tail segment, which differs from the line the claim
states (dollar on the variable, value last). -/
theorem c1_prepend_swapped_arguments :
    prependLine "PATH" "X" = "\nexport PATH=\"$X:PATH\""
    ∧ prependLine "PATH" "X" ≠ "\nexport PATH=\"$PATH:X\"" :=
  ⟨rfl, by decide⟩

/-- C10: every chunk the unix set, append and prepend functions write is
a newline, then a body, then a newline, and when neither the name nor
the value contains a newline the body is newline free: each call appends
one separator line plus one complete newline-terminated export line, so
consecutive calls never merge lines. -/
theorem c10_newline_framing (var value : String)
    (hv : '\n' ∉ var.data) (hw : '\n' ∉ value.data) :
    (∃ b, setChunk var value = "\n" ++ b ++ "\n" ∧ '\n' ∉ b.data)
    ∧ (∃ b, appendChunk var value = "\n" ++ b ++ "\n" ∧ '\n' ∉ b.data)
    ∧ (∃ b, prependChunk var value = "\n" ++ b ++ "\n" ∧ '\n' ∉ b.data) := by
  refine ⟨⟨"export " ++ var ++ "=" ++ value, ?_, ?_⟩,
          ⟨"export " ++ var ++ "=\"" ++ value ++ ":$" ++ var ++ "\"", ?_, ?_⟩,
          ⟨"export " ++ var ++ "=\"$" ++ value ++ ":" ++ var ++ "\"", ?_, ?_⟩⟩
  · simp [setChunk, setLine, String.append_assoc, newline_export]
  · intro hmem
    simp only [String.data_append, List.mem_append] at hmem
    rcases hmem with ((h | h) | h) | h
    · exact absurd h (by decide)
    · exact hv h
    · exact absurd h (by decide)
    · exact hw h
  · simp [appendChunk, appendLine, String.append_assoc, newline_export]
  · intro hmem
    simp only [String.data_append, List.mem_append] at hmem
    rcases hmem with (((((h | h) | h) | h) | h) | h) | h
    · exact absurd h (by decide)
    · exact hv h
    · exact absurd h (by decide)
    · exact hw h
    · exact absurd h (by decide)
    · exact hv h
    · exact absurd h (by decide)
  · simp [prependChunk, prependLine, String.append_assoc, newline_export]
  · intro hmem
    simp only [String.data_append, List.mem_append] at hmem
    rcases hmem with (((((h | h) | h) | h) | h) | h) | h
    · exact absurd h (by decide)
    · exact hv h
    · exact absurd h (by decide)
    · exact hw h
    · exact absurd h (by decide)
    · exact hv h
    · exact absurd h (by decide)

/-- C10 witness at PATH and X. -/
theorem c10_newline_framing_witness :
    (∃ b, setChunk "PATH" "X" = "\n" ++ b ++ "\n" ∧ '\n' ∉ b.data)
    ∧ (∃ b, appendChunk "PATH" "X" = "\n" ++ b ++ "\n" ∧ '\n' ∉ b.data)
    ∧ (∃ b, prependChunk "PATH" "X" = "\n" ++ b ++ "\n" ∧ '\n' ∉ b.data) :=
  c10_newline_framing "PATH" "X" (by decide) (by decide)

/-- C9: every unix write goes through a handle opened in append mode, so
set, append, prepend and check_or_set each leave the previous profile
contents as a prefix of the new contents. -/
theorem c9_append_mode_frame (env : Env) (profile var value : String) :
    (∃ rest, setOp profile var value = profile ++ rest)
    ∧ (∃ rest, appendOp profile var value = profile ++ rest)
    ∧ (∃ rest, prependOp profile var value = profile ++ rest)
    ∧ (∃ rest, check_or_set env profile var value = profile ++ rest) := by
  refine ⟨⟨setChunk var value, rfl⟩, ⟨appendChunk var value, rfl⟩,
    ⟨prependChunk var value, rfl⟩, ?_⟩
  rcases henv : envVar env var with e | s
  · exact ⟨setChunk var value, by simp [check_or_set, henv, setOp]⟩
  · exact ⟨"", by simp [check_or_set, henv]⟩

/-- C5: the unix profile locator tries bash_profile, bash_login and
profile in that order without creating, returns the first that opens
leaving the directory unchanged, and only when all three are missing
creates bash_profile and nothing else. -/
theorem c5_profile_fallback (fs : HomeDir) :
    (".bash_profile" ∈ fs →
        find_profile fs = some (".bash_profile", fs))
    ∧ (".bash_profile" ∉ fs → ".bash_login" ∈ fs →
        find_profile fs = some (".bash_login", fs))
    ∧ (".bash_profile" ∉ fs → ".bash_login" ∉ fs →
        ".profile" ∈ fs →
        find_profile fs = some (".profile", fs))
    ∧ (".bash_profile" ∉ fs → ".bash_login" ∉ fs →
        ".profile" ∉ fs →
        find_profile fs = some (".bash_profile", ".bash_profile" :: fs)) := by
  refine ⟨?_, ?_, ?_, ?_⟩
  · intro h1
    simp [find_profile, openProfile, h1]
  · intro h1 h2
    simp [find_profile, openProfile, h1, h2]
  · intro h1 h2 h3
    simp [find_profile, openProfile, h1, h2, h3]
  · intro h1 h2 h3
    simp [find_profile, openProfile, h1, h2, h3]

/-- C5 witness: a home with only the profile file, and an empty home. -/
theorem c5_profile_fallback_witness :
    find_profile [".profile"] = some (".profile", [".profile"])
    ∧ find_profile [] = some (".bash_profile", [".bash_profile"]) :=
  ⟨(c5_profile_fallback [".profile"]).2.2.1 (by decide) (by decide) (by decide),
   (c5_profile_fallback []).2.2.2 (by decide) (by decide) (by decide)⟩

/-- C6: when the variable is bound to a string in the process
environment, check_or_set leaves the unix profile and the windows
registry untouched. -/
theorem c6_check_or_set_frame (env : Env) (reg : RegState)
    (profile var value s : String)
    (h : lookupEnv env var = some (EnvVal.str s)) :
    check_or_set env profile var value = profile
    ∧ check_or_set_windows env reg var value = reg := by
  constructor
  · simp [check_or_set, envVar, h]
  · simp [check_or_set_windows, envVar, h]

/-- C6 witness at a concrete bound variable. -/
theorem c6_check_or_set_frame_witness :
    check_or_set [("PATH", EnvVal.str "v")] "contents" "PATH" "new" = "contents"
    ∧ check_or_set_windows [("PATH", EnvVal.str "v")] [("PATH", "v")] "PATH" "new"
      = [("PATH", "v")] :=
  c6_check_or_set_frame [("PATH", EnvVal.str "v")] [("PATH", "v")]
    "contents" "PATH" "new" "v" rfl

/-- C7: when the variable is absent from the process environment,
check_or_set produces exactly the state a direct set call produces, on
the unix profile and on the windows registry alike. -/
theorem c7_check_or_set_unset (env : Env) (reg : RegState)
    (profile var value : String) (h : lookupEnv env var = none) :
    check_or_set env profile var value = setOp profile var value
    ∧ check_or_set_windows env reg var value = set_windows reg var value := by
  constructor
  · simp [check_or_set, envVar, h]
  · simp [check_or_set_windows, envVar, h]

/-- C7 witness at an empty environment. -/
theorem c7_check_or_set_unset_witness :
    check_or_set [] "p" "PATH" "v" = setOp "p" "PATH" "v"
    ∧ check_or_set_windows [] [] "PATH" "v" = set_windows [] "PATH" "v" :=
  c7_check_or_set_unset [] [] "p" "PATH" "v" rfl

/-- C3 counterexample: with the variable bound to the empty string,
check_or_set leaves the profile untouched and does not delegate to set,
against the claim that an empty value delegates to set. -/
theorem c3_counterexample :
    check_or_set [("DUMMY", EnvVal.str "")] "profile" "DUMMY" "1" = "profile"
    ∧ check_or_set [("DUMMY", EnvVal.str "")] "profile" "DUMMY" "1"
      ≠ setOp "profile" "DUMMY" "1" :=
  ⟨rfl, by decide⟩

/-- C3 amended: check_or_set reads the variable through std env var and
no-ops whenever the read succeeds, the empty string included; it
delegates to set exactly when the read errors, that is when the variable
is absent or its value is not unicode. -/
theorem c3_check_or_set_amended (env : Env) (profile var value : String) :
    (∀ s, lookupEnv env var = some (EnvVal.str s) →
        check_or_set env profile var value = profile)
    ∧ (lookupEnv env var = none →
        check_or_set env profile var value = setOp profile var value)
    ∧ (lookupEnv env var = some EnvVal.nonUnicode →
        check_or_set env profile var value = setOp profile var value) := by
  refine ⟨?_, ?_, ?_⟩
  · intro s h
    simp [check_or_set, envVar, h]
  · intro h
    simp [check_or_set, envVar, h]
  · intro h
    simp [check_or_set, envVar, h]

/-- C3 amended witness: empty-string binding no-ops, absence sets. -/
theorem c3_check_or_set_amended_witness :
    check_or_set [("DUMMY", EnvVal.str "")] "p" "DUMMY" "1" = "p"
    ∧ check_or_set [] "p" "DUMMY" "1" = setOp "p" "DUMMY" "1" :=
  ⟨(c3_check_or_set_amended [("DUMMY", EnvVal.str "")] "p" "DUMMY" "1").1 "" rfl,
   (c3_check_or_set_amended [] "p" "DUMMY" "1").2.1 rfl⟩

/-- C2 counterexample: two windows append calls with the same name and
value store a list holding the segment twice, against the claimed dedup
idempotence. -/
theorem c2_counterexample :
    Except.bind (append_windows [("P", "A")] "P" "B")
        (fun r => append_windows r "P" "B") = Except.ok [("P", "A;B;B")]
    ∧ (splitSemi "A;B;B").count "B" = 2
    ∧ ¬ (splitSemi "A;B;B").count "B" = 1 :=
  ⟨rfl, rfl, by decide⟩

/-- C2 amended: the windows append pushes the new segment at the end and
prepend inserts it at index zero unconditionally, with no containment
check, even when the segment is already present in the stored list. -/
theorem c2_no_dedup_amended (reg : RegState) (var value s : String)
    (h : regGet reg var = some s) (_hmem : value ∈ splitSemi s) :
    append_windows reg var value
      = Except.ok (regSet reg var (joinSemi (splitSemi s ++ [value])))
    ∧ prepend_windows reg var value
      = Except.ok (regSet reg var (joinSemi (value :: splitSemi s))) := by
  constructor
  · simp [append_windows, get_from_environment, regGetValue, h]
  · simp [prepend_windows, get_from_environment, regGetValue, h]

/-- C2 amended witness: the segment B is already stored and still gets
appended again and prepended again. -/
theorem c2_no_dedup_amended_witness :
    append_windows [("P", "A;B")] "P" "B"
      = Except.ok (regSet [("P", "A;B")] "P" (joinSemi (splitSemi "A;B" ++ ["B"])))
    ∧ prepend_windows [("P", "A;B")] "P" "B"
      = Except.ok (regSet [("P", "A;B")] "P" (joinSemi ("B" :: splitSemi "A;B"))) :=
  c2_no_dedup_amended [("P", "A;B")] "P" "B" "A;B" rfl (by decide)

/-- C8 counterexample: the windows accessor on an absent variable
returns an error of the Other kind, not of the NotFound kind the claim
states. -/
theorem c8_counterexample :
    get_from_environment [] "PATH"
      = Except.error (ErrorKind.other,
          "Failed to get environment variable, Error code: 2")
    ∧ ErrorKind.other ≠ ErrorKind.notFound :=
  ⟨rfl, by decide⟩

/-- C8 amended: the accessor reads the registry directly; on an absent
variable it returns an error of the Other kind whose message embeds the
native code 2, and in particular never a success, empty string or not. -/
theorem c8_get_absent_amended (reg : RegState) (var : String)
    (h : regGet reg var = none) :
    get_from_environment reg var
      = Except.error (ErrorKind.other,
          "Failed to get environment variable, Error code: 2")
    ∧ ∀ s, get_from_environment reg var ≠ Except.ok s := by
  have hval : regGetValue reg var = Except.error 2 := by
    simp [regGetValue, h, ERROR_FILE_NOT_FOUND]
  have hmain : get_from_environment reg var
      = Except.error (ErrorKind.other,
          "Failed to get environment variable, Error code: 2") := by
    simp only [get_from_environment, hval]
    rfl
  exact ⟨hmain, fun s hs => by rw [hmain] at hs; exact Except.noConfusion hs⟩

/-- C8 amended witness at the empty registry. -/
theorem c8_get_absent_amended_witness :
    get_from_environment [] "PATH"
      = Except.error (ErrorKind.other,
          "Failed to get environment variable, Error code: 2") :=
  (c8_get_absent_amended [] "PATH" rfl).1

end EnvPerm
